import Mathlib

/-!
Verification development for the TeDasuke TeamDesk client library.

The definitions below are a shallow embedding of the library's core:
the JSON value model used by the error-response parser (`src/utils.ts`),
the typed error classifier (`src/client.ts`, `handleErrorResponse`),
the select builder state and validation (`src/table.ts`, `src/utils.ts`),
the query-string assembler (`buildQueryString` / `buildQueryParams`),
the auto-pagination generator (`SelectBuilder.selectAll`),
the cache fallback (`src/cache.ts`, `fetchWithCache`) and the
write-operation result mappers (`TableClient.create/update/upsert`).
Effectful TypeScript code is modelled by explicit state passing: the
HTTP transport is a function parameter, the disk cache is a value of
an explicit state type, and thrown JavaScript exceptions are an
`Except` error channel.
-/

namespace Tedasuke

/-- Model of a parsed JSON value (the result of `response.json()` /
`JSON.parse`), as inspected by `parseErrorResponse` in `src/utils.ts`.
JavaScript objects are modelled as ordered association lists (keys are
unique in any value produced by `JSON.parse`). -/
inductive JsonVal where
  | null : JsonVal
  | boolVal (b : Bool) : JsonVal
  | num (n : Int) : JsonVal
  | str (s : String) : JsonVal
  | arr (elems : List JsonVal) : JsonVal
  | obj (fields : List (String × JsonVal)) : JsonVal

mutual

/-- Model of JavaScript `String(v)` conversion, as used by
`parseErrorResponse` (`String(err)`, `String(err.column)`,
`String(err.message)`, `String(body.message)`): strings pass through,
numbers and booleans print, `null` prints as `"null"`, arrays join their
elements with `","` and plain objects print as `"[object Object]"`. -/
def jsToString : JsonVal → String
  | .null => "null"
  | .boolVal b => cond b "true" "false"
  | .num n => toString n
  | .str s => s
  | .obj _ => "[object Object]"
  | .arr xs => jsToStringList xs

/-- JavaScript `Array.prototype.toString`: elements joined with `","`. -/
def jsToStringList : List JsonVal → String
  | [] => ""
  | [x] => jsToString x
  | x :: y :: xs => jsToString x ++ "," ++ jsToStringList (y :: xs)

end

/-- JavaScript truthiness of a JSON value (`if (cached)`, `if (e.column)`
style tests): `null`, `false`, `0` and `""` are falsy; every array and
object (including the empty array and the empty object) is truthy. -/
def truthy : JsonVal → Bool
  | .null => false
  | .boolVal b => b
  | .num n => decide (n ≠ 0)
  | .str s => !s.isEmpty
  | .arr _ => true
  | .obj _ => true

/-- A field-level error entry, `ApiError` from `src/types.ts`:
an optional column name and a message. -/
structure ApiError where
  column : Option String
  message : String
deriving DecidableEq, Repr

/-- One entry of the `body.errors` array, mapped exactly as in
`parseErrorResponse` (`src/utils.ts` lines 92-100): a plain object
yields `column` (when the key is present, stringified) and `message`
(stringified, defaulting to `"Unknown error"` when the key is absent);
an array is a non-null `object` in JavaScript with neither key, so it
also yields `"Unknown error"`; any other value is stringified whole. -/
def parseOneError (err : JsonVal) : ApiError :=
  match err with
  | .obj fs =>
      { column := (fs.lookup "column").map jsToString
        message := match fs.lookup "message" with
          | some m => jsToString m
          | none => "Unknown error" }
  | .arr _ => { column := none, message := "Unknown error" }
  | other => { column := none, message := jsToString other }

/-- Message composition from `parseErrorResponse`: each entry renders as
`column: message` when its column is truthy (a non-empty string) and as
the bare message otherwise, joined with `"; "` in backend order. -/
def composeMessage (errors : List ApiError) : String :=
  String.intercalate "; " (errors.map fun e =>
    match e.column with
    | some c => if c.isEmpty then e.message else c ++ ": " ++ e.message
    | none => e.message)

/-- `parseErrorResponse` from `src/utils.ts` lines 79-117: a bare string
is the message; an object with an `errors` array maps each entry and
joins the messages; an object with a `message` key stringifies it;
everything else falls back to `"Unknown error"`. Returns the composed
message together with the structured field errors. -/
def parseErrorResponse (body : JsonVal) : String × List ApiError :=
  match body with
  | .str s => (s, [{ column := none, message := s }])
  | .obj fields =>
      match fields.lookup "errors" with
      | some (.arr errs) =>
          let errors := errs.map parseOneError
          (composeMessage errors, errors)
      | _ =>
          match fields.lookup "message" with
          | some m =>
              let msg := jsToString m
              (msg, [{ column := none, message := msg }])
          | none => ("Unknown error", [{ column := none, message := "Unknown error" }])
  | _ => ("Unknown error", [{ column := none, message := "Unknown error" }])

/-- The typed error hierarchy of `src/errors.ts`, flattened to a tagged
union: `AuthenticationError`, `NotFoundError` (status forced to 404 by
its constructor), `RateLimitError` (status forced to 429, carries the
optional retry-after seconds), `ValidationError` (carries the structured
field errors), `ServerError`, and the base `TeamDeskError` as the
generic variant. -/
inductive TypedError where
  | authentication (message : String) (status : Nat) (url : String)
  | notFound (message : String) (url : String)
  | rateLimit (message : String) (retryAfter : Option Int) (url : String)
  | validation (message : String) (status : Nat) (details : List ApiError) (url : String)
  | server (message : String) (status : Nat) (url : String)
  | generic (message : String) (status : Option Nat) (details : Option (List ApiError)) (url : String)
deriving DecidableEq, Repr

/-- Discriminant of a typed error, for stating the status-to-variant map. -/
inductive ErrKind where
  | authentication | notFound | rateLimit | validation | server | generic
deriving DecidableEq, Repr

/-- The variant tag of a typed error. -/
def TypedError.kind : TypedError → ErrKind
  | .authentication .. => .authentication
  | .notFound .. => .notFound
  | .rateLimit .. => .rateLimit
  | .validation .. => .validation
  | .server .. => .server
  | .generic .. => .generic

/-- The human-readable message carried by a typed error. -/
def TypedError.message : TypedError → String
  | .authentication m _ _ => m
  | .notFound m _ => m
  | .rateLimit m _ _ => m
  | .validation m _ _ _ => m
  | .server m _ _ => m
  | .generic m _ _ _ => m

/-- The retry-after seconds carried by a `rateLimit` error, if any. -/
def TypedError.retryAfterSeconds : TypedError → Option Int
  | .rateLimit _ r _ => r
  | _ => none

/-- The structured field errors carried by a `validation` or `generic`
error, if any. -/
def TypedError.fieldErrors : TypedError → Option (List ApiError)
  | .validation _ _ d _ => some d
  | .generic _ _ d _ => d
  | _ => none

/-- Characters skipped by JavaScript `parseInt` before the number. -/
def jsWhitespace (c : Char) : Bool :=
  c == ' ' || c == '\t' || c == '\n' || c == '\r'

/-- Decimal digit accumulation for `jsParseInt`. -/
def digitsToNat : List Char → Nat → Nat
  | [], acc => acc
  | c :: cs, acc => digitsToNat cs (acc * 10 + (c.toNat - 48))

/-- Model of JavaScript `parseInt(s, 10)`: leading whitespace is
skipped, an optional sign is read, then the longest prefix of decimal
digits; `none` models the `NaN` result when no digit is found. -/
def jsParseInt (s : String) : Option Int :=
  let cs := s.data.dropWhile jsWhitespace
  let signed : Int × List Char :=
    match cs with
    | '-' :: r => (-1, r)
    | '+' :: r => (1, r)
    | r => (1, r)
  let digits := signed.2.takeWhile fun c => decide (48 ≤ c.toNat) && decide (c.toNat ≤ 57)
  if digits.isEmpty then none
  else some (signed.1 * (digitsToNat digits 0 : Int))

/-- The `retryAfter` option computed at `src/client.ts` line 268:
`retryAfter ? parseInt(retryAfter, 10) : undefined`. A missing or empty
(falsy) header yields no value; otherwise the header is parsed
(`none` for a non-numeric header models the `NaN` result, which the
claims never observe). -/
def parseRetryAfterHeader : Option String → Option Int
  | none => none
  | some s => if s.isEmpty then none else jsParseInt s

/-- The body value `handleErrorResponse` feeds to `parseErrorResponse`
(`src/client.ts` lines 234-244): the parsed JSON body when `json()`
succeeds; otherwise the raw body text as a string; otherwise the
synthesized `HTTP status statusText` string. -/
def effectiveErrorBody (status : Nat) (statusText : String)
    (jsonBody : Option JsonVal) (textBody : Option String) : JsonVal :=
  match jsonBody with
  | some j => j
  | none =>
      .str (match textBody with
        | some t => t
        | none => "HTTP " ++ toString status ++ " " ++ statusText)

/-- `TeamDeskClient.handleErrorResponse` from `src/client.ts` lines
230-294, as a pure classifier: the failed response is given by its
status code, status text, parsed JSON body (when parsing succeeded),
body text (when reading text succeeded), optional `Retry-After` header
and request URL; the result is the one typed error the method throws. -/
def handleErrorResponse (status : Nat) (statusText : String)
    (jsonBody : Option JsonVal) (textBody : Option String)
    (retryAfterHeader : Option String) (url : String) : TypedError :=
  let parsed := parseErrorResponse (effectiveErrorBody status statusText jsonBody textBody)
  let message := parsed.1
  let errors := parsed.2
  if status = 401 ∨ status = 403 then
    .authentication ("Authentication failed: " ++ message) status url
  else if status = 404 then
    .notFound ("Resource not found: " ++ message) url
  else if status = 429 then
    .rateLimit ("Rate limit exceeded: " ++ message) (parseRetryAfterHeader retryAfterHeader) url
  else if status = 400 ∨ status = 422 then
    .validation ("Validation failed: " ++ message) status errors url
  else if 500 ≤ status then
    .server ("Server error: " ++ message) status url
  else
    .generic ("Request failed: " ++ message) (some status) (some errors) url

/-- A thrown JavaScript error, split by the error taxonomy of the spec:
`usage` models a plain `new Error(message)` (programmer-facing usage
errors, raised synchronously by the builders), `teamDesk` models any
instance of the `TeamDeskError` hierarchy from `src/errors.ts`. -/
inductive JsError where
  | usage (message : String)
  | teamDesk (e : TypedError)
deriving DecidableEq, Repr

/-- Sort direction, `"ASC" | "DESC"` from `src/types.ts`. -/
inductive SortDir where
  | asc | desc
deriving DecidableEq, Repr

/-- `SelectOptions` from `src/types.ts` lines 158-171: the accumulated
query intent of a select builder. All fields are optional; `skip` and
`top` are JavaScript numbers, modelled as `Int`. -/
structure SelectOptions where
  columns : Option (List String) := none
  filter : Option String := none
  sortColumn : Option String := none
  sortDirection : Option SortDir := none
  skip : Option Int := none
  top : Option Int := none
deriving DecidableEq, Repr

/-- `validatePaginationLimit` from `src/utils.ts` lines 65-73: numbers
below 1 or above 500 raise a plain usage `Error` before any request is
built; in-range numbers pass through. -/
def validatePaginationLimit (limit : Int) : Except JsError Int :=
  if limit < 1 then .error (.usage "Limit must be at least 1")
  else if limit > 500 then
    .error (.usage "TeamDesk maximum limit is 500 records per request")
  else .ok limit

namespace SelectBuilder

/-- `SelectBuilder.limit` from `src/table.ts` lines 292-295: stores the
validated value in `options.top`, or re-raises the synchronous usage
error of `validatePaginationLimit`. The builder state is threaded
explicitly; no transport is involved. -/
def limit (o : SelectOptions) (n : Int) : Except JsError SelectOptions :=
  (validatePaginationLimit n).map fun v => { o with top := some v }

/-- `SelectBuilder.skip` from `src/table.ts` lines 313-319: a negative
argument raises a plain usage `Error` synchronously; otherwise the value
is stored in `options.skip`. -/
def skip (o : SelectOptions) (s : Int) : Except JsError SelectOptions :=
  if s < 0 then .error (.usage "Skip must be non-negative")
  else .ok { o with skip := some s }

end SelectBuilder

/-- `formatSort` from `src/utils.ts` lines 54-59: the composite
`column//DIRECTION` sort token. -/
def formatSort (column : String) (direction : SortDir) : String :=
  column ++ "//" ++ (match direction with | .asc => "ASC" | .desc => "DESC")

/-- One value of the parameter record accepted by `buildQueryString`
(`Record<string, string | number | boolean | string[] | undefined>`). -/
inductive JsParam where
  | str (s : String)
  | num (n : Int)
  | boolVal (b : Bool)
  | arrVal (xs : List String)
  | undef
deriving DecidableEq, Repr

/-- The UTF-8 byte sequence of a Unicode scalar value, as a list of
natural numbers below 256. `encodeURIComponent` percent-encodes the
UTF-8 bytes of its argument. -/
def utf8Bytes (c : Char) : List Nat :=
  let n := c.toNat
  if n < 128 then [n]
  else if n < 2048 then [192 + n / 64, 128 + n % 64]
  else if n < 65536 then [224 + n / 4096, 128 + n / 64 % 64, 128 + n % 64]
  else [240 + n / 262144, 128 + n / 4096 % 64, 128 + n / 64 % 64, 128 + n % 64]

/-- The bytes `encodeURIComponent` leaves unescaped (ECMA-262
`uriUnescaped`): ASCII letters, digits, and `- _ . ! ~ * ' ( )`. -/
def isUnreservedByte (b : Nat) : Bool :=
  (decide (65 ≤ b) && decide (b ≤ 90)) || (decide (97 ≤ b) && decide (b ≤ 122)) ||
  (decide (48 ≤ b) && decide (b ≤ 57)) ||
  b == 45 || b == 95 || b == 46 || b == 33 || b == 126 ||
  b == 42 || b == 39 || b == 40 || b == 41

/-- The uppercase hexadecimal digit for a value below 16. -/
def hexDigitChar (n : Nat) : Char :=
  if n < 10 then Char.ofNat (48 + n) else Char.ofNat (55 + n)

/-- Percent-encoding of one UTF-8 byte: unescaped bytes pass through as
their ASCII character, all others become `%HH` with uppercase hex. -/
def encodeByte (b : Nat) : List Char :=
  if isUnreservedByte b then [Char.ofNat b]
  else ['%', hexDigitChar (b / 16 % 16), hexDigitChar (b % 16)]

/-- Model of the JavaScript builtin `encodeURIComponent`, as called by
`buildQueryString` and `encodeTableName` / `encodeViewName` in
`src/utils.ts`: every UTF-8 byte of the string is kept or
percent-escaped according to `isUnreservedByte`. -/
def encodeURIComponent (s : String) : String :=
  String.mk ((s.data.flatMap utf8Bytes).flatMap encodeByte)

/-- The numeric value of one hexadecimal digit character, if any. -/
def hexVal (c : Char) : Option Nat :=
  let n := c.toNat
  if 48 ≤ n ∧ n ≤ 57 then some (n - 48)
  else if 65 ≤ n ∧ n ≤ 70 then some (n - 55)
  else if 97 ≤ n ∧ n ≤ 102 then some (n - 87)
  else none

/-- Percent-decoding to a UTF-8 byte sequence: a `%HH` escape denotes
one byte, any other character contributes its own UTF-8 bytes; `none`
models the `URIError` a malformed escape raises in JavaScript. -/
def percentDecodeBytes : List Char → Option (List Nat)
  | [] => some []
  | c :: rest =>
    if c = '%' then
      match rest with
      | h1 :: h2 :: rest2 =>
          match hexVal h1, hexVal h2 with
          | some v1, some v2 => (percentDecodeBytes rest2).map ((16 * v1 + v2) :: ·)
          | _, _ => none
      | _ => none
    else (percentDecodeBytes rest).map (utf8Bytes c ++ ·)

/-- UTF-8 decoding of a byte sequence; `none` models the `URIError`
JavaScript raises on an invalid sequence. A continuation byte that is
missing is read as 0, which fails the continuation-range check exactly
as a too-short sequence must. -/
def utf8Decode : List Nat → Option (List Char)
  | [] => some []
  | b0 :: rest =>
    if b0 < 128 then (utf8Decode rest).map (Char.ofNat b0 :: ·)
    else if b0 < 192 then none
    else if b0 < 224 then
      let b1 := rest.headD 0
      if 128 ≤ b1 ∧ b1 < 192 then
        (utf8Decode (rest.drop 1)).map (Char.ofNat ((b0 - 192) * 64 + (b1 - 128)) :: ·)
      else none
    else if b0 < 240 then
      let b1 := rest.headD 0
      let b2 := (rest.drop 1).headD 0
      if (128 ≤ b1 ∧ b1 < 192) ∧ (128 ≤ b2 ∧ b2 < 192) then
        (utf8Decode (rest.drop 2)).map
          (Char.ofNat ((b0 - 224) * 4096 + (b1 - 128) * 64 + (b2 - 128)) :: ·)
      else none
    else if b0 < 248 then
      let b1 := rest.headD 0
      let b2 := (rest.drop 1).headD 0
      let b3 := (rest.drop 2).headD 0
      if (128 ≤ b1 ∧ b1 < 192) ∧ (128 ≤ b2 ∧ b2 < 192) ∧ (128 ≤ b3 ∧ b3 < 192) then
        (utf8Decode (rest.drop 3)).map
          (Char.ofNat ((b0 - 240) * 262144 + (b1 - 128) * 4096 +
            (b2 - 128) * 64 + (b3 - 128)) :: ·)
      else none
    else none
termination_by l => l.length
decreasing_by all_goals (simp; try omega)

/-- Model of the JavaScript builtin `decodeURIComponent`: percent-decode
to bytes, then UTF-8 decode. -/
def decodeURIComponent (s : String) : Option String :=
  (percentDecodeBytes s.data).bind fun bytes =>
    (utf8Decode bytes).map String.mk

/-- The individual `key=value` parts pushed by `buildQueryString`
(`src/utils.ts` lines 25-46), in iteration order: `undefined` values are
skipped, an array contributes one encoded pair per item in list order,
and any other value is stringified and contributes one pair. -/
def buildQueryParts (params : List (String × JsParam)) : List String :=
  params.flatMap fun kv =>
    match kv.2 with
    | .undef => []
    | .arrVal xs => xs.map fun item =>
        encodeURIComponent kv.1 ++ "=" ++ encodeURIComponent item
    | .str s => [encodeURIComponent kv.1 ++ "=" ++ encodeURIComponent s]
    | .num n => [encodeURIComponent kv.1 ++ "=" ++ encodeURIComponent (toString n)]
    | .boolVal b => [encodeURIComponent kv.1 ++ "=" ++ encodeURIComponent (cond b "true" "false")]

/-- `buildQueryString` from `src/utils.ts`: the parts joined with `&`
behind a `?`, or the empty string when no part was produced. -/
def buildQueryString (params : List (String × JsParam)) : String :=
  let parts := buildQueryParts params
  if parts.length > 0 then "?" ++ String.intercalate "&" parts else ""

/-- The parameter record built by `SelectBuilder.buildQueryParams`
(`src/table.ts` lines 392-419), in insertion order: `column` (only for a
present, non-empty column list), `filter` (only for a truthy, hence
non-empty, filter string), `sort` (only for a truthy sort column;
direction defaults to ascending), then `top` and `skip` whenever they
are not `undefined`. -/
def SelectBuilder.buildQueryParams (o : SelectOptions) : List (String × JsParam) :=
  (match o.columns with
    | some cols => if cols.length > 0 then [("column", JsParam.arrVal cols)] else []
    | none => [])
  ++ (match o.filter with
    | some f => if f.isEmpty then [] else [("filter", JsParam.str f)]
    | none => [])
  ++ (match o.sortColumn with
    | some c =>
        if c.isEmpty then []
        else [("sort", JsParam.str (formatSort c (o.sortDirection.getD .asc)))]
    | none => [])
  ++ (match o.top with
    | some t => [("top", JsParam.num t)]
    | none => [])
  ++ (match o.skip with
    | some sk => [("skip", JsParam.num sk)]
    | none => [])

/-- The full query string of `SelectBuilder.execute`. -/
def SelectBuilder.queryString (o : SelectOptions) : String :=
  buildQueryString (SelectBuilder.buildQueryParams o)

/-- The page request derived inside `SelectBuilder.selectAll`
(`src/table.ts` lines 362-371): a fresh builder whose options are a
spread copy of the base options with only `skip` and `top` overridden
(`builder.options = { ...this.options, skip: offset, top: batchSize }`,
`batchSize = 500`). -/
def SelectBuilder.pageRequest (base : SelectOptions) (offset : Int) : SelectOptions :=
  { base with skip := some offset, top := some 500 }

/-- The `while (true)` loop of `SelectBuilder.selectAll` (`src/table.ts`
lines 358-386), unrolled on explicit fuel. `backend` stands for
`builder.execute()` — one HTTP round trip returning the page for the
given options. The result pairs the trace of page requests actually
issued with the batches yielded to the consumer; `none` means the fuel
ran out before the loop terminated (the generator would still be
running). An empty page ends the loop without yielding; a short page is
yielded and ends the loop; a full page is yielded and the offset
advances by 500. -/
def SelectBuilder.selectAllLoop {R : Type} (backend : SelectOptions → List R)
    (base : SelectOptions) : Nat → Int → Option (List SelectOptions × List (List R))
  | 0, _ => none
  | fuel + 1, offset =>
    let req := SelectBuilder.pageRequest base offset
    let batch := backend req
    if batch.length = 0 then some ([req], [])
    else if batch.length < 500 then some ([req], [batch])
    else
      match SelectBuilder.selectAllLoop backend base fuel (offset + 500) with
      | none => none
      | some (reqs, rest) => some (req :: reqs, batch :: rest)

/-- `SelectBuilder.selectAll`: the loop started at
`offset = this.options.skip || 0` (a `skip` of `0` and an absent `skip`
both start at `0`). -/
def SelectBuilder.selectAll {R : Type} (backend : SelectOptions → List R)
    (base : SelectOptions) (fuel : Nat) : Option (List SelectOptions × List (List R)) :=
  SelectBuilder.selectAllLoop backend base fuel (base.skip.getD 0)

/-- The auto-pagination algorithm exactly as the spec states it
(§4.2 steps 1-7), over an abstract page function taking an offset and a
page size: page size fixed at 500, empty page terminates without
yielding, short page terminates after yielding, full page advances the
offset by the page size. This definition follows the spec's words and is
compared against `SelectBuilder.selectAll`, which follows the source. -/
def autoPaginateSpec {R : Type} (page : Int → Nat → List R) :
    Nat → Int → Option (List (List R))
  | 0, _ => none
  | fuel + 1, offset =>
    let batch := page offset 500
    if batch.length = 0 then some []
    else if batch.length < 500 then some [batch]
    else (autoPaginateSpec page fuel (offset + 500)).map (batch :: ·)

/-- Outcome record of `fetchWithCache` (`src/cache.ts`): the data, the
`fromCache` flag and the optional cache age in minutes. -/
structure FetchOutcome where
  data : JsonVal
  fromCache : Bool
  cacheAge : Option Int

/-- The cache file for one key, as `fetchWithCache` observes it: the
parsed snapshot value together with its modification time in
milliseconds (`Deno.stat(..).mtime`). A missing file and a corrupt file
are collapsed to `none`, since `loadFromCache` returns `null` for both
(`src/cache.ts` lines 43-54). -/
def CacheEntry : Type := Option (JsonVal × Int)

/-- The `catch` branch of `fetchWithCache` (`src/cache.ts` lines
140-155): load the snapshot; a truthy snapshot is returned with
`fromCache: true` and `cacheAge = (now - mtime) ms / 1000 / 60` minutes;
a missing — or falsy — snapshot re-raises the caught error. Returns the
outcome together with the (unchanged) cache entry. -/
def cacheFallback (now : Int) (entry : CacheEntry) (err : JsError) :
    Except JsError (FetchOutcome × CacheEntry) :=
  match entry with
  | some (v, t) =>
      if truthy v then
        .ok ({ data := v, fromCache := true, cacheAge := some ((now - t) / 60000) },
          some (v, t))
      else .error err
  | none => .error err

/-- `fetchWithCache` from `src/cache.ts` lines 127-156, with the
environment made explicit: `now` is `Date.now()`, `entry` the current
cache file for the key, `fetchResult` the outcome of `await fetcher()`,
and `saveErr` the outcome of `await saveToCache(...)` on the success
path (`none` when the write succeeds). Both the fetcher's failure and a
save failure land in the same `catch` block, whose caught `error` is
then the respective failure. A successful save overwrites the entry with
the fresh data stamped `now`. -/
def fetchWithCache (now : Int) (entry : CacheEntry)
    (fetchResult : Except JsError JsonVal) (saveErr : Option JsError) :
    Except JsError (FetchOutcome × CacheEntry) :=
  match fetchResult with
  | .ok data =>
      match saveErr with
      | none => .ok ({ data := data, fromCache := false, cacheAge := none }, some (data, now))
      | some e => cacheFallback now entry e
  | .error e => cacheFallback now entry e

/-- One entry of the raw backend response to a write operation
(`Array<{ status: number; id?: number; key?: string }>`). -/
structure RawWriteEntry where
  status : Nat
  id : Option Int
  key : Option String
deriving DecidableEq, Repr

/-- `CreateResult` / `UpdateResult` from `src/types.ts`: the mapped
per-record outcome of a create or update. `data` models the
`Partial<T>` object. -/
structure WriteResult where
  success : Bool
  status : Nat
  data : List (String × JsonVal)
  id : Option Int
  key : Option String
  errors : List ApiError

/-- The `created` / `updated` discriminator of an upsert result. -/
inductive UpsertAction where
  | created | updated
deriving DecidableEq, Repr

/-- `UpsertResult` from `src/types.ts`: like `WriteResult` plus the
`action` discriminator. -/
structure UpsertWriteResult where
  success : Bool
  status : Nat
  data : List (String × JsonVal)
  action : UpsertAction
  id : Option Int
  key : Option String
  errors : List ApiError

namespace TableClient

/-- The result mapper of `TableClient.create` (`src/table.ts` lines
109-117): one result per raw entry, `success` derived from a 2xx
status, `data` the empty object, `errors` the empty list. -/
def createResults (raw : List RawWriteEntry) : List WriteResult :=
  raw.map fun r =>
    { success := decide (200 ≤ r.status) && decide (r.status < 300)
      status := r.status
      data := []
      id := r.id
      key := r.key
      errors := [] }

/-- The result mapper of `TableClient.update` (`src/table.ts` lines
154-162): identical in shape to the create mapper. -/
def updateResults (raw : List RawWriteEntry) : List WriteResult :=
  raw.map fun r =>
    { success := decide (200 ≤ r.status) && decide (r.status < 300)
      status := r.status
      data := []
      id := r.id
      key := r.key
      errors := [] }

/-- The result mapper of `TableClient.upsert` (`src/table.ts` lines
203-212): like create/update plus `action`, which is `created` exactly
for status 201 and `updated` otherwise. -/
def upsertResults (raw : List RawWriteEntry) : List UpsertWriteResult :=
  raw.map fun r =>
    { success := decide (200 ≤ r.status) && decide (r.status < 300)
      status := r.status
      data := []
      action := if r.status = 201 then .created else .updated
      id := r.id
      key := r.key
      errors := [] }

end TableClient

/-- The client configuration after the constructor of `TeamDeskClient`
(`src/client.ts` lines 49-95) has normalized it. -/
structure ClientConfig where
  appId : String
  baseUrl : String
  useBearerAuth : Bool
  token : Option String
  user : Option String
  password : Option String
deriving DecidableEq, Repr

/-- The path-embedded auth segment of traditional (non-bearer) URLs:
`this.config.token ? this.config.token : user:password`, including the
JavaScript truthiness of the token check. -/
def ClientConfig.authSegment (cfg : ClientConfig) : String :=
  match cfg.token with
  | some t => if t.isEmpty then cfg.user.getD "" ++ ":" ++ cfg.password.getD "" else t
  | none => cfg.user.getD "" ++ ":" ++ cfg.password.getD ""

/-- `TeamDeskClient.buildUrl` from `src/client.ts` lines 147-162: the
leading slash of the path is dropped; in bearer mode the URL is
`baseUrl/appId/path` with no auth segment at all; otherwise the token or
`user:password` segment is embedded between `appId` and the path. -/
def ClientConfig.buildUrl (cfg : ClientConfig) (path : String) : String :=
  let cleanPath := if path.startsWith "/" then path.drop 1 else path
  if cfg.useBearerAuth then
    cfg.baseUrl ++ "/" ++ cfg.appId ++ "/" ++ cleanPath
  else
    cfg.baseUrl ++ "/" ++ cfg.appId ++ "/" ++ cfg.authSegment ++ "/" ++ cleanPath

/-! Theorems -/

/-- C8: for every configuration in bearer mode and every path, the URL
built by `buildUrl` carries no information about the token: two
configurations differing only in their token value produce identical
URLs. The secret is carried only in the `Authorization` header built by
`request`. -/
theorem bearer_url_token_noninterference (cfg : ClientConfig)
    (t1 t2 : Option String) (path : String) (h : cfg.useBearerAuth = true) :
    ClientConfig.buildUrl { cfg with token := t1 } path
      = ClientConfig.buildUrl { cfg with token := t2 } path := by
  simp [ClientConfig.buildUrl, h]

/-- Concrete witness for C8: a bearer-mode configuration with two
different tokens yields the same URL. -/
theorem bearer_url_token_noninterference_witness :
    ClientConfig.buildUrl
        { appId := "15331", baseUrl := "https://t", useBearerAuth := true,
          token := some "secret-one", user := none, password := none } "/describe.json"
      = ClientConfig.buildUrl
        { appId := "15331", baseUrl := "https://t", useBearerAuth := true,
          token := some "secret-two", user := none, password := none } "/describe.json" :=
  bearer_url_token_noninterference
    { appId := "15331", baseUrl := "https://t", useBearerAuth := true,
      token := some "secret-one", user := none, password := none }
    (some "secret-one") (some "secret-two") "/describe.json" rfl

/-- C10: the write-operation mappers of create, update and upsert return
one result per raw response entry, in the same order (the i-th result is
built from the i-th entry, as witnessed by the status/id/key
correspondence), and every result carries an empty `errors` list and an
empty `data` object regardless of the entry's status — including non-2xx
entries, whose `success` is `false` but whose `errors` stay empty. -/
theorem write_mappers_per_entry (raw : List RawWriteEntry) :
    List.Forall₂ (fun r res => res.status = r.status ∧ res.id = r.id ∧ res.key = r.key ∧
        res.success = (decide (200 ≤ r.status) && decide (r.status < 300)) ∧
        res.errors = [] ∧ res.data = []) raw (TableClient.createResults raw)
    ∧ List.Forall₂ (fun r res => res.status = r.status ∧ res.id = r.id ∧ res.key = r.key ∧
        res.success = (decide (200 ≤ r.status) && decide (r.status < 300)) ∧
        res.errors = [] ∧ res.data = []) raw (TableClient.updateResults raw)
    ∧ List.Forall₂ (fun r res => res.status = r.status ∧ res.id = r.id ∧ res.key = r.key ∧
        res.success = (decide (200 ≤ r.status) && decide (r.status < 300)) ∧
        res.action = (if r.status = 201 then UpsertAction.created else UpsertAction.updated) ∧
        res.errors = [] ∧ res.data = []) raw (TableClient.upsertResults raw) := by
  refine ⟨?_, ?_, ?_⟩ <;>
    simp [TableClient.createResults, TableClient.updateResults, TableClient.upsertResults,
      List.forall₂_map_right_iff, List.forall₂_same]

/-- C3: out-of-range `limit` arguments and negative `skip` arguments
raise a synchronous plain usage error (`JsError.usage`, not part of the
`TeamDeskError` hierarchy) — the builder functions take no transport, so
no network request can have been issued — while `limit 1`, `limit 500`
and `skip 0` succeed and store the value. -/
theorem limit_skip_validation (o : SelectOptions) (n s : Int)
    (hn : n < 1 ∨ 500 < n) (hs : s < 0) :
    (∃ msg, SelectBuilder.limit o n = .error (JsError.usage msg))
    ∧ SelectBuilder.limit o 1 = .ok { o with top := some 1 }
    ∧ SelectBuilder.limit o 500 = .ok { o with top := some 500 }
    ∧ (∃ msg, SelectBuilder.skip o s = .error (JsError.usage msg))
    ∧ SelectBuilder.skip o 0 = .ok { o with skip := some 0 } := by
  refine ⟨?_, ?_, ?_, ?_, ?_⟩
  · rcases hn with h | h
    · exact ⟨"Limit must be at least 1", by
        simp [SelectBuilder.limit, validatePaginationLimit, h, Except.map]⟩
    · exact ⟨"TeamDesk maximum limit is 500 records per request", by
        simp [SelectBuilder.limit, validatePaginationLimit, Except.map,
          if_neg (by omega : ¬ n < 1), if_pos (by omega : (500 : Int) < n)]⟩
  · simp [SelectBuilder.limit, validatePaginationLimit, Except.map]
  · simp [SelectBuilder.limit, validatePaginationLimit, Except.map]
  · exact ⟨"Skip must be non-negative", by simp [SelectBuilder.skip, hs]⟩
  · simp [SelectBuilder.skip]

/-- Concrete witness for C3: `limit 501` and `limit 0` fail with a usage
error, `limit 1`, `limit 500` and `skip 0` succeed, `skip (-1)` fails. -/
theorem limit_skip_validation_witness :
    ((∃ msg, SelectBuilder.limit {} 501 = .error (JsError.usage msg))
      ∧ SelectBuilder.limit {} 1 = .ok { top := some 1 }
      ∧ SelectBuilder.limit {} 500 = .ok { top := some 500 }
      ∧ (∃ msg, SelectBuilder.skip {} (-1) = .error (JsError.usage msg))
      ∧ SelectBuilder.skip {} 0 = .ok { skip := some 0 })
    ∧ (∃ msg, SelectBuilder.limit {} 0 = .error (JsError.usage msg)) :=
  ⟨limit_skip_validation {} 501 (-1) (Or.inr (by norm_num)) (by norm_num),
    (limit_skip_validation {} 0 (-1) (Or.inl (by norm_num)) (by norm_num)).1⟩

/-- C5 counterexample: a snapshot for the key exists (the persisted
value `false`, with mtime 0) and the fetcher fails, yet `fetchWithCache`
re-raises the fetch error instead of returning the snapshot with
`fromCache: true` — the `if (cached)` truthiness test drops falsy
snapshots. -/
theorem cache_fallback_falsy_snapshot_counterexample :
    fetchWithCache 0 (some (JsonVal.boolVal false, 0))
        (.error (.usage "network down")) none
      = .error (.usage "network down")
    ∧ (fetchWithCache 0 (some (JsonVal.boolVal false, 0))
          (.error (.usage "network down")) none
        = .ok ({ data := JsonVal.boolVal false, fromCache := true, cacheAge := some 0 },
            some (JsonVal.boolVal false, 0)) → False) := by
  refine ⟨rfl, fun h => ?_⟩
  rw [show fetchWithCache 0 (some (JsonVal.boolVal false, 0))
      (.error (.usage "network down")) none
      = Except.error (JsError.usage "network down") from rfl] at h
  exact Except.noConfusion h

/-- C5 (amended): when the fetcher fails and a snapshot for the key
exists whose value is truthy (in particular any record array), the call
returns it with `fromCache: true` and a cache age derived from the
snapshot's modification time, non-negative whenever the snapshot was
written no later than now; when no snapshot exists, the fetcher's
original failure is re-raised unchanged. -/
theorem cache_fallback_on_failure (now t : Int) (v : JsonVal) (e : JsError)
    (saveErr : Option JsError) (hv : truthy v = true) (ht : t ≤ now) :
    fetchWithCache now (some (v, t)) (.error e) saveErr
      = .ok ({ data := v, fromCache := true, cacheAge := some ((now - t) / 60000) },
          some (v, t))
    ∧ 0 ≤ (now - t) / 60000
    ∧ fetchWithCache now none (.error e) saveErr = .error e := by
  exact ⟨by simp [fetchWithCache, cacheFallback, hv],
    Int.ediv_nonneg (by omega) (by norm_num), rfl⟩

/-- Concrete witness for C5 (amended): a truthy snapshot written at time
0 is served at time 120000 with `fromCache: true` and age 2 minutes; with
no snapshot the original error propagates. -/
theorem cache_fallback_on_failure_witness :
    fetchWithCache 120000 (some (JsonVal.arr [JsonVal.str "r1"], 0))
        (.error (.usage "network down")) none
      = .ok ({ data := JsonVal.arr [JsonVal.str "r1"], fromCache := true,
                cacheAge := some 2 }, some (JsonVal.arr [JsonVal.str "r1"], 0))
    ∧ 0 ≤ (120000 - 0 : Int) / 60000
    ∧ fetchWithCache 120000 none (.error (.usage "network down")) none
        = .error (.usage "network down") :=
  cache_fallback_on_failure 120000 0 (JsonVal.arr [JsonVal.str "r1"])
    (.usage "network down") none rfl (by norm_num)

/-- C6 counterexample: the fetcher succeeds with fresh data but
persisting the snapshot fails and no prior snapshot exists; the call
raises the save failure instead of returning the fetched data with
`fromCache: false` — the save sits inside the same `try` block, so its
failure diverts the success path into the cache-fallback `catch`. -/
theorem cache_save_failure_counterexample :
    fetchWithCache 0 none (.ok (JsonVal.str "fresh")) (some (.usage "disk full"))
      = .error (.usage "disk full")
    ∧ (fetchWithCache 0 none (.ok (JsonVal.str "fresh")) (some (.usage "disk full"))
        = .ok ({ data := JsonVal.str "fresh", fromCache := false, cacheAge := none },
            some (JsonVal.str "fresh", 0)) → False) := by
  refine ⟨rfl, fun h => ?_⟩
  rw [show fetchWithCache 0 none (.ok (JsonVal.str "fresh")) (some (.usage "disk full"))
      = Except.error (JsError.usage "disk full") from rfl] at h
  exact Except.noConfusion h

/-- C6 (amended): when the fetcher succeeds and the snapshot write also
succeeds, the fetched data is returned with `fromCache: false` and the
snapshot is overwritten; when the snapshot write fails, the fetched data
is NOT returned — the call falls into the cache-fallback path, returning
a prior truthy snapshot with `fromCache: true` when one exists and
raising the save failure otherwise. -/
theorem cache_success_path (now t : Int) (entry : CacheEntry) (d v : JsonVal)
    (se : JsError) (hv : truthy v = true) :
    fetchWithCache now entry (.ok d) none
      = .ok ({ data := d, fromCache := false, cacheAge := none }, some (d, now))
    ∧ fetchWithCache now none (.ok d) (some se) = .error se
    ∧ fetchWithCache now (some (v, t)) (.ok d) (some se)
      = .ok ({ data := v, fromCache := true, cacheAge := some ((now - t) / 60000) },
          some (v, t)) := by
  exact ⟨rfl, rfl, by simp [fetchWithCache, cacheFallback, hv]⟩

/-- Concrete witness for C6 (amended): with a successful save the fresh
data comes back with `fromCache: false`; with a failing save and a prior
snapshot the stale snapshot comes back instead. -/
theorem cache_success_path_witness :
    fetchWithCache 60000 (some (JsonVal.str "stale", 0)) (.ok (JsonVal.str "fresh")) none
      = .ok ({ data := JsonVal.str "fresh", fromCache := false, cacheAge := none },
          some (JsonVal.str "fresh", 60000))
    ∧ fetchWithCache 60000 none (.ok (JsonVal.str "fresh")) (some (.usage "disk full"))
        = .error (.usage "disk full")
    ∧ fetchWithCache 60000 (some (JsonVal.str "stale", 0)) (.ok (JsonVal.str "fresh"))
        (some (.usage "disk full"))
      = .ok ({ data := JsonVal.str "stale", fromCache := true, cacheAge := some 1 },
          some (JsonVal.str "stale", 0)) :=
  cache_success_path 60000 0 (some (JsonVal.str "stale", 0)) (JsonVal.str "fresh")
    (JsonVal.str "stale") (.usage "disk full") rfl

/-- The loop of `selectAll` yields exactly what the spec's paginator
yields, for every starting offset and fuel. -/
theorem selectAllLoop_matches_spec {R : Type} (backend : SelectOptions → List R)
    (base : SelectOptions) :
    ∀ (fuel : Nat) (offset : Int),
      (SelectBuilder.selectAllLoop backend base fuel offset).map Prod.snd
        = autoPaginateSpec
            (fun off top => backend { base with skip := some off, top := some (top : Int) })
            fuel offset := by
  intro fuel
  induction fuel with
  | zero => intro offset; rfl
  | succ n ih =>
      intro offset
      rw [SelectBuilder.selectAllLoop, autoPaginateSpec]
      simp only [SelectBuilder.pageRequest]
      by_cases h0 : (backend { base with skip := some offset, top := some 500 }).length = 0
      · simp [h0]
      · by_cases h1 : (backend { base with skip := some offset, top := some 500 }).length < 500
        · simp [h0, h1]
        · simp only [h0, h1, if_false, if_neg h0, if_neg h1]
          rw [← ih (offset + 500)]
          cases hrec : SelectBuilder.selectAllLoop backend base n (offset + 500) with
          | none => simp [h0, h1]
          | some pr => simp [h0, h1]

/-- C1: for every base query intent and every backend page function,
`selectAll` behaves exactly as the spec's auto-pagination algorithm over
the page function that runs the base intent with `skip` and `top`
overridden: pages are requested with `top` fixed at 500 regardless of
any `top` on the base query, starting at the base query's `skip`
(default 0); an empty page terminates without yielding, a short page
(length < 500) terminates after yielding, and a full page advances the
offset by 500. Both sides are `none` exactly when the loop is still
running after `fuel` pages. -/
theorem selectAll_matches_paginator_spec {R : Type} (backend : SelectOptions → List R)
    (base : SelectOptions) (fuel : Nat) :
    (SelectBuilder.selectAll backend base fuel).map Prod.snd
      = autoPaginateSpec
          (fun off top => backend { base with skip := some off, top := some (top : Int) })
          fuel (base.skip.getD 0) :=
  selectAllLoop_matches_spec backend base fuel (base.skip.getD 0)

/-- Every page request issued by the `selectAll` loop is a clone of the
base intent with only `skip` and `top` overridden. -/
theorem selectAllLoop_requests {R : Type} (backend : SelectOptions → List R)
    (base : SelectOptions) :
    ∀ (fuel : Nat) (offset : Int) (reqs : List SelectOptions) (batches : List (List R)),
      SelectBuilder.selectAllLoop backend base fuel offset = some (reqs, batches) →
      ∀ r ∈ reqs, r = { base with skip := r.skip, top := some 500 } := by
  intro fuel
  induction fuel with
  | zero => intro offset reqs batches h; exact absurd h (by simp [SelectBuilder.selectAllLoop])
  | succ n ih =>
      intro offset reqs batches h r hr
      rw [SelectBuilder.selectAllLoop] at h
      simp only [SelectBuilder.pageRequest] at h
      by_cases h0 : (backend { base with skip := some offset, top := some 500 }).length = 0
      · simp only [h0, if_pos, if_true] at h
        obtain ⟨hreqs, _⟩ := Prod.mk.injEq .. ▸ (Option.some.injEq .. ▸ h)
        subst hreqs
        simp only [List.mem_singleton] at hr
        subst hr; rfl
      · by_cases h1 : (backend { base with skip := some offset, top := some 500 }).length < 500
        · simp only [h0, h1, if_neg, if_pos, if_false, if_true] at h
          obtain ⟨hreqs, _⟩ := Prod.mk.injEq .. ▸ (Option.some.injEq .. ▸ h)
          subst hreqs
          simp only [List.mem_singleton] at hr
          subst hr; rfl
        · simp only [h0, h1, if_false, if_neg h0, if_neg h1] at h
          cases hrec : SelectBuilder.selectAllLoop backend base n (offset + 500) with
          | none => rw [hrec] at h; exact absurd h (by simp)
          | some pr =>
              rw [hrec] at h
              obtain ⟨reqs', batches'⟩ := pr
              simp only [Option.some.injEq, Prod.mk.injEq] at h
              obtain ⟨hreqs, _⟩ := h
              subst hreqs
              rcases List.mem_cons.mp hr with hhead | htail
              · subst hhead; rfl
              · exact ih (offset + 500) reqs' batches' hrec r htail

/-- C9: running `selectAll` never perturbs the base builder's
accumulated intent — each page request is a fresh clone of the base
options in which only `skip` and `top` are overridden, so its `columns`,
`filter`, `sortColumn` and `sortDirection` are those of the base and its
`top` is the fixed batch size; the base options value itself is passed
unchanged into every iteration. -/
theorem selectAll_preserves_intent {R : Type} (backend : SelectOptions → List R)
    (base : SelectOptions) (fuel : Nat) (reqs : List SelectOptions)
    (batches : List (List R))
    (h : SelectBuilder.selectAll backend base fuel = some (reqs, batches)) :
    ∀ r ∈ reqs, r.columns = base.columns ∧ r.filter = base.filter ∧
      r.sortColumn = base.sortColumn ∧ r.sortDirection = base.sortDirection ∧
      r.top = some 500 ∧ r = { base with skip := r.skip, top := some 500 } := by
  intro r hr
  have hclone := selectAllLoop_requests backend base fuel (base.skip.getD 0)
    reqs batches h r hr
  refine ⟨?_, ?_, ?_, ?_, ?_, hclone⟩ <;> rw [hclone]

/-- Concrete witness for C9: with a backend returning no records, the
single probe request equals the base intent (here carrying columns, a
filter, a sort and a caller `top` of 7) with only `skip` and `top`
overridden. -/
theorem selectAll_preserves_intent_witness :
    SelectBuilder.selectAll (fun _ => ([] : List Nat))
        { columns := some ["A"], filter := some "[X]>1", sortColumn := some "A",
          sortDirection := some SortDir.desc, skip := none, top := some 7 } 1
      = some ([SelectBuilder.pageRequest
          { columns := some ["A"], filter := some "[X]>1", sortColumn := some "A",
            sortDirection := some SortDir.desc, skip := none, top := some 7 } 0], [])
    ∧ (SelectBuilder.pageRequest
          { columns := some ["A"], filter := some "[X]>1", sortColumn := some "A",
            sortDirection := some SortDir.desc, skip := none, top := some 7 } 0).columns
        = some ["A"]
    ∧ SelectBuilder.pageRequest
          { columns := some ["A"], filter := some "[X]>1", sortColumn := some "A",
            sortDirection := some SortDir.desc, skip := none, top := some 7 } 0
        = { columns := some ["A"], filter := some "[X]>1", sortColumn := some "A",
            sortDirection := some SortDir.desc,
            skip := (SelectBuilder.pageRequest
              { columns := some ["A"], filter := some "[X]>1", sortColumn := some "A",
                sortDirection := some SortDir.desc, skip := none, top := some 7 } 0).skip,
            top := some 500 } := by
  refine ⟨rfl, rfl, ?_⟩
  have h := selectAll_preserves_intent (fun _ => ([] : List Nat))
    { columns := some ["A"], filter := some "[X]>1", sortColumn := some "A",
      sortDirection := some SortDir.desc, skip := none, top := some 7 } 1
    [SelectBuilder.pageRequest
      { columns := some ["A"], filter := some "[X]>1", sortColumn := some "A",
        sortDirection := some SortDir.desc, skip := none, top := some 7 } 0] [] rfl
  exact (h _ (List.mem_singleton.mpr rfl)).2.2.2.2.2

/-- Case analysis of the classifier by status code, one branch per row
of the status-to-variant table. -/
theorem classify_branches (status : Nat) (statusText : String)
    (jsonBody : Option JsonVal) (textBody : Option String)
    (hdr : Option String) (url : String) :
    ((status = 401 ∨ status = 403) →
      handleErrorResponse status statusText jsonBody textBody hdr url
        = .authentication ("Authentication failed: "
            ++ (parseErrorResponse (effectiveErrorBody status statusText jsonBody textBody)).1)
            status url)
    ∧ (status = 404 →
      handleErrorResponse status statusText jsonBody textBody hdr url
        = .notFound ("Resource not found: "
            ++ (parseErrorResponse (effectiveErrorBody status statusText jsonBody textBody)).1)
            url)
    ∧ (status = 429 →
      handleErrorResponse status statusText jsonBody textBody hdr url
        = .rateLimit ("Rate limit exceeded: "
            ++ (parseErrorResponse (effectiveErrorBody status statusText jsonBody textBody)).1)
            (parseRetryAfterHeader hdr) url)
    ∧ (status = 429 → hdr = some "30" →
      (handleErrorResponse status statusText jsonBody textBody hdr url).retryAfterSeconds
        = some 30)
    ∧ ((status = 400 ∨ status = 422) →
      handleErrorResponse status statusText jsonBody textBody hdr url
        = .validation ("Validation failed: "
            ++ (parseErrorResponse (effectiveErrorBody status statusText jsonBody textBody)).1)
            status
            (parseErrorResponse (effectiveErrorBody status statusText jsonBody textBody)).2
            url)
    ∧ (500 ≤ status →
      handleErrorResponse status statusText jsonBody textBody hdr url
        = .server ("Server error: "
            ++ (parseErrorResponse (effectiveErrorBody status statusText jsonBody textBody)).1)
            status url)
    ∧ (status ≠ 401 → status ≠ 403 → status ≠ 404 → status ≠ 429 → status ≠ 400 →
        status ≠ 422 → status < 500 → ¬(200 ≤ status ∧ status < 300) →
      handleErrorResponse status statusText jsonBody textBody hdr url
        = .generic ("Request failed: "
            ++ (parseErrorResponse (effectiveErrorBody status statusText jsonBody textBody)).1)
            (some status)
            (some (parseErrorResponse (effectiveErrorBody status statusText jsonBody textBody)).2)
            url) := by
  refine ⟨?_, ?_, ?_, ?_, ?_, ?_, ?_⟩
  · intro h
    simp only [handleErrorResponse, if_pos h]
  · intro h
    subst h
    simp [handleErrorResponse]
  · intro h
    subst h
    simp [handleErrorResponse]
  · intro h hh
    subst h
    subst hh
    simp only [handleErrorResponse]
    norm_num [TypedError.retryAfterSeconds]
    rfl
  · intro h
    have c1 : ¬(status = 401 ∨ status = 403) := by omega
    have c2 : status ≠ 404 := by omega
    have c3 : status ≠ 429 := by omega
    simp only [handleErrorResponse, if_neg c1, if_neg c2, if_neg c3, if_pos h]
  · intro h
    have c1 : ¬(status = 401 ∨ status = 403) := by omega
    have c2 : status ≠ 404 := by omega
    have c3 : status ≠ 429 := by omega
    have c4 : ¬(status = 400 ∨ status = 422) := by omega
    simp only [handleErrorResponse, if_neg c1, if_neg c2, if_neg c3, if_neg c4, if_pos h]
  · intro h1 h2 h3 h4 h5 h6 h7 _h8
    have c1 : ¬(status = 401 ∨ status = 403) := by omega
    have c4 : ¬(status = 400 ∨ status = 422) := by omega
    have c5 : ¬(500 ≤ status) := by omega
    simp only [handleErrorResponse, if_neg c1, if_neg h3, if_neg h4, if_neg c4, if_neg c5]

/-- C2: the classifier is a total function (so no exception other than
the produced typed error can escape, whatever the body — `jsonBody` and
`textBody` range over all parse outcomes, including both failing), and
the variant is determined by the status code exactly as the spec's
table says: 401/403 ↦ Authentication, 404 ↦ NotFound, 429 ↦ RateLimit
carrying the parsed `Retry-After` header (`Retry-After: 30` yields 30),
400/422 ↦ Validation carrying the structured field errors parsed from
the body, ≥500 ↦ Server, and any other non-2xx status ↦ the generic
`TeamDeskError`. -/
theorem classifier_status_mapping (status : Nat) (statusText : String)
    (jsonBody : Option JsonVal) (textBody : Option String)
    (hdr : Option String) (url : String) :
    ((status = 401 ∨ status = 403) →
      handleErrorResponse status statusText jsonBody textBody hdr url
        = .authentication ("Authentication failed: "
            ++ (parseErrorResponse (effectiveErrorBody status statusText jsonBody textBody)).1)
            status url)
    ∧ (status = 404 →
      handleErrorResponse status statusText jsonBody textBody hdr url
        = .notFound ("Resource not found: "
            ++ (parseErrorResponse (effectiveErrorBody status statusText jsonBody textBody)).1)
            url)
    ∧ (status = 429 →
      handleErrorResponse status statusText jsonBody textBody hdr url
        = .rateLimit ("Rate limit exceeded: "
            ++ (parseErrorResponse (effectiveErrorBody status statusText jsonBody textBody)).1)
            (parseRetryAfterHeader hdr) url)
    ∧ (status = 429 → hdr = some "30" →
      (handleErrorResponse status statusText jsonBody textBody hdr url).retryAfterSeconds
        = some 30)
    ∧ ((status = 400 ∨ status = 422) →
      handleErrorResponse status statusText jsonBody textBody hdr url
        = .validation ("Validation failed: "
            ++ (parseErrorResponse (effectiveErrorBody status statusText jsonBody textBody)).1)
            status
            (parseErrorResponse (effectiveErrorBody status statusText jsonBody textBody)).2
            url)
    ∧ (500 ≤ status →
      handleErrorResponse status statusText jsonBody textBody hdr url
        = .server ("Server error: "
            ++ (parseErrorResponse (effectiveErrorBody status statusText jsonBody textBody)).1)
            status url)
    ∧ (status ≠ 401 → status ≠ 403 → status ≠ 404 → status ≠ 429 → status ≠ 400 →
        status ≠ 422 → status < 500 → ¬(200 ≤ status ∧ status < 300) →
      handleErrorResponse status statusText jsonBody textBody hdr url
        = .generic ("Request failed: "
            ++ (parseErrorResponse (effectiveErrorBody status statusText jsonBody textBody)).1)
            (some status)
            (some (parseErrorResponse (effectiveErrorBody status statusText jsonBody textBody)).2)
            url) :=
  classify_branches status statusText jsonBody textBody hdr url

/-- Concrete witness for C2: a 429 with `Retry-After: 30` carries 30
seconds; a 401 with an unparseable body still classifies as
Authentication; a 503 classifies as Server. -/
theorem classifier_status_mapping_witness :
    (handleErrorResponse 429 "Too Many Requests" none (some "slow down")
        (some "30") "u").retryAfterSeconds = some 30
    ∧ handleErrorResponse 401 "Unauthorized" none none none "u"
        = .authentication ("Authentication failed: "
            ++ (parseErrorResponse (effectiveErrorBody 401 "Unauthorized" none none)).1)
            401 "u"
    ∧ handleErrorResponse 503 "Service Unavailable" none none none "u"
        = .server ("Server error: "
            ++ (parseErrorResponse (effectiveErrorBody 503 "Service Unavailable" none none)).1)
            503 "u" :=
  ⟨(classifier_status_mapping 429 "Too Many Requests" none (some "slow down")
      (some "30") "u").2.2.2.1 rfl rfl,
    (classifier_status_mapping 401 "Unauthorized" none none none "u").1 (Or.inl rfl),
    (classifier_status_mapping 503 "Service Unavailable" none none none "u").2.2.2.2.2.1
      (by norm_num)⟩

/-- C7 counterexample: a 500 response whose body fails to parse as JSON
(body text `"boom"`) does not classify as Generic — the status switch
still applies, producing a Server error with the best-effort message. -/
theorem classifier_unparseable_not_generic_counterexample :
    handleErrorResponse 500 "Internal Server Error" none (some "boom") none "u"
      = .server "Server error: boom" 500 "u"
    ∧ (handleErrorResponse 500 "Internal Server Error" none (some "boom") none "u").kind
        ≠ ErrKind.generic := by
  exact ⟨by decide, by decide⟩

/-- C7 (amended): when the body cannot be parsed as JSON, classification
degrades to a best-effort message — the body text, or `HTTP status
statusText` when the text is also unavailable — carried by whichever
variant the status determines (never a secondary failure: the classifier
is total); a Generic error results exactly for statuses with no specific
mapping (not 401/403/404/429/400/422 and below 500). -/
theorem classifier_unparseable_degrades (status : Nat) (statusText : String)
    (textBody : Option String) (hdr : Option String) (url : String) :
    (∃ p, (handleErrorResponse status statusText none textBody hdr url).message
        = p ++ (textBody.getD ("HTTP " ++ toString status ++ " " ++ statusText)))
    ∧ (status ≠ 401 → status ≠ 403 → status ≠ 404 → status ≠ 429 → status ≠ 400 →
        status ≠ 422 → status < 500 →
      handleErrorResponse status statusText none textBody hdr url
        = .generic ("Request failed: "
              ++ (textBody.getD ("HTTP " ++ toString status ++ " " ++ statusText)))
            (some status)
            (some [{ column := none,
                     message := textBody.getD
                       ("HTTP " ++ toString status ++ " " ++ statusText) }])
            url) := by
  have hbody : effectiveErrorBody status statusText none textBody
      = .str (textBody.getD ("HTTP " ++ toString status ++ " " ++ statusText)) := by
    cases textBody <;> rfl
  have hparse : parseErrorResponse (effectiveErrorBody status statusText none textBody)
      = (textBody.getD ("HTTP " ++ toString status ++ " " ++ statusText),
        [{ column := none,
           message := textBody.getD ("HTTP " ++ toString status ++ " " ++ statusText) }]) := by
    rw [hbody]; rfl
  constructor
  · by_cases c1 : status = 401 ∨ status = 403
    · exact ⟨"Authentication failed: ", by
        rw [(classify_branches status statusText none textBody hdr url).1 c1, hparse]
        rfl⟩
    · by_cases c2 : status = 404
      · exact ⟨"Resource not found: ", by
          rw [(classify_branches status statusText none textBody hdr url).2.1 c2,
            hparse]
          rfl⟩
      · by_cases c3 : status = 429
        · exact ⟨"Rate limit exceeded: ", by
            rw [(classify_branches status statusText none textBody hdr url).2.2.1 c3,
              hparse]
            rfl⟩
        · by_cases c4 : status = 400 ∨ status = 422
          · exact ⟨"Validation failed: ", by
              rw [(classify_branches status statusText
                none textBody hdr url).2.2.2.2.1 c4, hparse]
              rfl⟩
          · by_cases c5 : 500 ≤ status
            · exact ⟨"Server error: ", by
                rw [(classify_branches status statusText
                  none textBody hdr url).2.2.2.2.2.1 c5, hparse]
                rfl⟩
            · refine ⟨"Request failed: ", ?_⟩
              simp only [handleErrorResponse, if_neg c1, if_neg c2, if_neg c3, if_neg c4,
                if_neg c5]
              rw [hparse]
              rfl
  · intro h1 h2 h3 h4 h5 h6 h7
    have c1 : ¬(status = 401 ∨ status = 403) := by omega
    have c4 : ¬(status = 400 ∨ status = 422) := by omega
    have c5 : ¬(500 ≤ status) := by omega
    simp only [handleErrorResponse, if_neg c1, if_neg h3, if_neg h4, if_neg c4, if_neg c5]
    rw [hparse]

/-- Concrete witness for C7 (amended): a 418 response with neither a
JSON body nor body text classifies as Generic with the synthesized
`HTTP 418 Teapot` message. -/
theorem classifier_unparseable_degrades_witness :
    (∃ p, (handleErrorResponse 418 "Teapot" none none none "u").message
        = p ++ ((none : Option String).getD ("HTTP " ++ toString 418 ++ " " ++ "Teapot")))
    ∧ handleErrorResponse 418 "Teapot" none none none "u"
        = .generic ("Request failed: "
              ++ ((none : Option String).getD ("HTTP " ++ toString 418 ++ " " ++ "Teapot")))
            (some 418)
            (some [{ column := none,
                     message := (none : Option String).getD
                       ("HTTP " ++ toString 418 ++ " " ++ "Teapot") }])
            "u" :=
  ⟨(classifier_unparseable_degrades 418 "Teapot" none none "u").1,
    (classifier_unparseable_degrades 418 "Teapot" none none "u").2
      (by norm_num) (by norm_num) (by norm_num) (by norm_num) (by norm_num)
      (by norm_num) (by norm_num)⟩

/-- An unescaped byte is ASCII (below 128) and is not the percent sign. -/
theorem unreserved_bound (b : Nat) (h : isUnreservedByte b = true) : b < 128 ∧ b ≠ 37 := by
  simp only [isUnreservedByte, Bool.or_eq_true, Bool.and_eq_true, decide_eq_true_eq,
    beq_iff_eq] at h
  omega

/-- `Char.ofNat` and `Char.toNat` cancel on ASCII codes. -/
theorem ofNat_toNat_small : ∀ b : Nat, b < 128 → (Char.ofNat b).toNat = b := by decide

/-- `hexVal` inverts `hexDigitChar` on digits. -/
theorem hexVal_hexDigitChar : ∀ n : Nat, n < 16 → hexVal (hexDigitChar n) = some n := by
  decide

/-- The UTF-8 encoding of an ASCII character is the single byte. -/
theorem utf8Bytes_ofNat_small (b : Nat) (h : b < 128) : utf8Bytes (Char.ofNat b) = [b] := by
  simp [utf8Bytes, ofNat_toNat_small b h, h]

/-- Unfolding of the decoder on a non-escape character. -/
theorem percentDecodeBytes_cons_ne (c : Char) (cs : List Char) (hne : c ≠ '%') :
    percentDecodeBytes (c :: cs) = (percentDecodeBytes cs).map (utf8Bytes c ++ ·) := by
  cases cs with
  | nil => simp [percentDecodeBytes, hne]
  | cons d ds =>
      cases ds with
      | nil => simp [percentDecodeBytes, hne]
      | cons e es => simp [percentDecodeBytes, hne]

/-- Unfolding of the decoder on a well-formed escape sequence. -/
theorem percentDecodeBytes_escape (h1 h2 : Char) (cs : List Char) (v1 v2 : Nat)
    (e1 : hexVal h1 = some v1) (e2 : hexVal h2 = some v2) :
    percentDecodeBytes ('%' :: h1 :: h2 :: cs)
      = (percentDecodeBytes cs).map ((16 * v1 + v2) :: ·) := by
  simp [percentDecodeBytes, e1, e2]

/-- Percent-decoding inverts the encoding of one byte, in front of any
continuation. -/
theorem percentDecode_encodeByte (b : Nat) (hb : b < 256) (cs : List Char) :
    percentDecodeBytes (encodeByte b ++ cs) = (percentDecodeBytes cs).map (b :: ·) := by
  by_cases hu : isUnreservedByte b
  · have h128 := (unreserved_bound b hu).1
    have h37 := (unreserved_bound b hu).2
    have hne : Char.ofNat b ≠ '%' := by
      intro heq
      have h2 := congrArg Char.toNat heq
      rw [ofNat_toNat_small b h128] at h2
      exact h37 (by simpa using h2)
    rw [show encodeByte b = [Char.ofNat b] by simp [encodeByte, hu]]
    simp only [List.cons_append, List.nil_append]
    rw [percentDecodeBytes_cons_ne _ _ hne, utf8Bytes_ofNat_small b h128]
    simp
  · have e1 : hexVal (hexDigitChar (b / 16 % 16)) = some (b / 16 % 16) :=
      hexVal_hexDigitChar _ (Nat.mod_lt _ (by norm_num))
    have e2 : hexVal (hexDigitChar (b % 16)) = some (b % 16) :=
      hexVal_hexDigitChar _ (Nat.mod_lt _ (by norm_num))
    have hb' : 16 * (b / 16 % 16) + b % 16 = b := by omega
    rw [show encodeByte b
        = ['%', hexDigitChar (b / 16 % 16), hexDigitChar (b % 16)] by
      simp [encodeByte, hu]]
    simp only [List.cons_append, List.nil_append]
    rw [percentDecodeBytes_escape _ _ _ _ _ e1 e2, hb']

/-- Percent-decoding inverts the encoding of a byte sequence, in front
of any continuation. -/
theorem percentDecode_encodedBytes : ∀ (bs : List Nat), (∀ b ∈ bs, b < 256) →
    ∀ cs : List Char, percentDecodeBytes (bs.flatMap encodeByte ++ cs)
      = (percentDecodeBytes cs).map (bs ++ ·)
  | [], _, cs => by simp
  | b :: bs, h, cs => by
      have hb : b < 256 := h b (List.mem_cons_self ..)
      have hbs : ∀ x ∈ bs, x < 256 := fun x hx => h x (List.mem_cons_of_mem _ hx)
      rw [List.flatMap_cons, List.append_assoc, percentDecode_encodeByte b hb,
        percentDecode_encodedBytes bs hbs cs]
      simp [Option.map_map, Function.comp_def]

/-- Every Unicode scalar value is below 1114112. -/
theorem char_toNat_lt (c : Char) : c.toNat < 1114112 := by
  have h : c.toNat < 55296 ∨ (57343 < c.toNat ∧ c.toNat < 1114112) := c.valid
  rcases h with h | h <;> omega

/-- Every UTF-8 byte is below 256. -/
theorem utf8Bytes_lt (c : Char) : ∀ b ∈ utf8Bytes c, b < 256 := by
  have hc := char_toNat_lt c
  intro b hb
  unfold utf8Bytes at hb
  by_cases h1 : c.toNat < 128
  · simp [h1] at hb; omega
  · by_cases h2 : c.toNat < 2048
    · simp [h1, h2] at hb
      rcases hb with hb | hb <;> omega
    · by_cases h3 : c.toNat < 65536
      · simp [h1, h2, h3] at hb
        rcases hb with hb | hb | hb <;> omega
      · simp [h1, h2, h3] at hb
        rcases hb with hb | hb | hb | hb <;> omega

/-- Unfolding of the UTF-8 decoder on an ASCII byte. -/
theorem utf8Decode_one (b : Nat) (bs : List Nat) (h : b < 128) :
    utf8Decode (b :: bs) = (utf8Decode bs).map (Char.ofNat b :: ·) := by
  rw [utf8Decode]
  simp [h]

/-- Unfolding of the UTF-8 decoder on a two-byte sequence. -/
theorem utf8Decode_two (b0 b1 : Nat) (bs : List Nat)
    (h0 : 192 ≤ b0) (h0' : b0 < 224) (h1 : 128 ≤ b1) (h1' : b1 < 192) :
    utf8Decode (b0 :: b1 :: bs)
      = (utf8Decode bs).map (Char.ofNat ((b0 - 192) * 64 + (b1 - 128)) :: ·) := by
  have hn1 : ¬ b0 < 128 := by omega
  have hn2 : ¬ b0 < 192 := by omega
  rw [utf8Decode]
  simp [hn1, hn2, h0', h1, h1']

/-- Unfolding of the UTF-8 decoder on a three-byte sequence. -/
theorem utf8Decode_three (b0 b1 b2 : Nat) (bs : List Nat)
    (h0 : 224 ≤ b0) (h0' : b0 < 240) (h1 : 128 ≤ b1) (h1' : b1 < 192)
    (h2 : 128 ≤ b2) (h2' : b2 < 192) :
    utf8Decode (b0 :: b1 :: b2 :: bs)
      = (utf8Decode bs).map
          (Char.ofNat ((b0 - 224) * 4096 + (b1 - 128) * 64 + (b2 - 128)) :: ·) := by
  have hn1 : ¬ b0 < 128 := by omega
  have hn2 : ¬ b0 < 192 := by omega
  have hn3 : ¬ b0 < 224 := by omega
  rw [utf8Decode]
  simp [hn1, hn2, hn3, h0', h1, h1', h2, h2']

/-- Unfolding of the UTF-8 decoder on a four-byte sequence. -/
theorem utf8Decode_four (b0 b1 b2 b3 : Nat) (bs : List Nat)
    (h0 : 240 ≤ b0) (h0' : b0 < 248) (h1 : 128 ≤ b1) (h1' : b1 < 192)
    (h2 : 128 ≤ b2) (h2' : b2 < 192) (h3 : 128 ≤ b3) (h3' : b3 < 192) :
    utf8Decode (b0 :: b1 :: b2 :: b3 :: bs)
      = (utf8Decode bs).map
          (Char.ofNat ((b0 - 240) * 262144 + (b1 - 128) * 4096
            + (b2 - 128) * 64 + (b3 - 128)) :: ·) := by
  have hn1 : ¬ b0 < 128 := by omega
  have hn2 : ¬ b0 < 192 := by omega
  have hn3 : ¬ b0 < 224 := by omega
  have hn4 : ¬ b0 < 240 := by omega
  rw [utf8Decode]
  simp [hn1, hn2, hn3, hn4, h0', h1, h1', h2, h2', h3, h3']

/-- UTF-8 decoding inverts the UTF-8 encoding of one character, in front
of any continuation. -/
theorem utf8Decode_utf8Bytes (c : Char) (bs : List Nat) :
    utf8Decode (utf8Bytes c ++ bs) = (utf8Decode bs).map (c :: ·) := by
  have hval := char_toNat_lt c
  by_cases h1 : c.toNat < 128
  · rw [show utf8Bytes c = [c.toNat] by simp [utf8Bytes, h1], List.cons_append,
      List.nil_append, utf8Decode_one _ _ h1, Char.ofNat_toNat]
  · by_cases h2 : c.toNat < 2048
    · rw [show utf8Bytes c = [192 + c.toNat / 64, 128 + c.toNat % 64] by
          simp [utf8Bytes, h1, h2]]
      simp only [List.cons_append, List.nil_append]
      rw [utf8Decode_two _ _ _ (by omega) (by omega) (by omega) (by omega),
        show (192 + c.toNat / 64 - 192) * 64 + (128 + c.toNat % 64 - 128) = c.toNat
          by omega,
        Char.ofNat_toNat]
    · by_cases h3 : c.toNat < 65536
      · rw [show utf8Bytes c
            = [224 + c.toNat / 4096, 128 + c.toNat / 64 % 64, 128 + c.toNat % 64] by
            simp [utf8Bytes, h1, h2, h3]]
        simp only [List.cons_append, List.nil_append]
        rw [utf8Decode_three _ _ _ _ (by omega) (by omega) (by omega) (by omega)
            (by omega) (by omega),
          show (224 + c.toNat / 4096 - 224) * 4096 + (128 + c.toNat / 64 % 64 - 128) * 64
              + (128 + c.toNat % 64 - 128) = c.toNat by omega,
          Char.ofNat_toNat]
      · rw [show utf8Bytes c
            = [240 + c.toNat / 262144, 128 + c.toNat / 4096 % 64,
               128 + c.toNat / 64 % 64, 128 + c.toNat % 64] by
            simp [utf8Bytes, h1, h2, h3]]
        simp only [List.cons_append, List.nil_append]
        rw [utf8Decode_four _ _ _ _ _ (by omega) (by omega) (by omega) (by omega)
            (by omega) (by omega) (by omega) (by omega),
          show (240 + c.toNat / 262144 - 240) * 262144
              + (128 + c.toNat / 4096 % 64 - 128) * 4096
              + (128 + c.toNat / 64 % 64 - 128) * 64
              + (128 + c.toNat % 64 - 128) = c.toNat by omega,
          Char.ofNat_toNat]

/-- UTF-8 decoding inverts the UTF-8 encoding of a character list. -/
theorem utf8Decode_flat : ∀ l : List Char, utf8Decode (l.flatMap utf8Bytes) = some l
  | [] => by simp [utf8Decode]
  | c :: l => by
      rw [List.flatMap_cons, utf8Decode_utf8Bytes c, utf8Decode_flat l]
      rfl

/-- The encoding round-trip: `decodeURIComponent` recovers exactly the
string `encodeURIComponent` was given. -/
theorem decode_encode (s : String) : decodeURIComponent (encodeURIComponent s) = some s := by
  have hlt : ∀ b ∈ s.data.flatMap utf8Bytes, b < 256 := by
    intro b hb
    obtain ⟨c, _, hc⟩ := List.mem_flatMap.mp hb
    exact utf8Bytes_lt c b hc
  have h1 : percentDecodeBytes ((s.data.flatMap utf8Bytes).flatMap encodeByte)
      = some (s.data.flatMap utf8Bytes) := by
    have := percentDecode_encodedBytes (s.data.flatMap utf8Bytes) hlt []
    simpa [percentDecodeBytes] using this
  show (percentDecodeBytes (String.mk ((s.data.flatMap utf8Bytes).flatMap encodeByte)).data).bind _
      = some s
  rw [show (String.mk ((s.data.flatMap utf8Bytes).flatMap encodeByte)).data
      = (s.data.flatMap utf8Bytes).flatMap encodeByte from rfl, h1]
  show (utf8Decode (s.data.flatMap utf8Bytes)).map String.mk = some s
  rw [utf8Decode_flat s.data]
  show some (String.mk s.data) = some s
  rfl

/-- C4: for every non-empty column list and non-empty filter string, the
assembled query consists of one `column=value` pair per column name, in
list order — never a single comma-joined value — followed by the single
`filter` pair; percent-decoding any encoded value (in particular each
column name and the filter, whatever reserved URL characters or Unicode
they contain) yields the exact original string; and a builder state with
every field absent contributes no parameter at all. -/
theorem query_params_percent_encoding (cols : List String) (f : String)
    (hc : cols ≠ []) (hf : f ≠ "") :
    SelectBuilder.buildQueryParams { columns := some cols, filter := some f }
      = [("column", JsParam.arrVal cols), ("filter", JsParam.str f)]
    ∧ buildQueryParts [("column", JsParam.arrVal cols), ("filter", JsParam.str f)]
      = cols.map (fun c => "column=" ++ encodeURIComponent c)
        ++ ["filter=" ++ encodeURIComponent f]
    ∧ (∀ c ∈ cols, decodeURIComponent (encodeURIComponent c) = some c)
    ∧ decodeURIComponent (encodeURIComponent f) = some f
    ∧ SelectBuilder.buildQueryParams {} = [] := by
  have e1 : encodeURIComponent "column" ++ "=" = "column=" := by decide
  have e2 : encodeURIComponent "filter" ++ "=" = "filter=" := by decide
  refine ⟨?_, ?_, fun c _ => decode_encode c, decode_encode f, rfl⟩
  · have hlen : 0 < cols.length := List.length_pos.mpr hc
    have hemp : f.isEmpty = false := by
      rcases hearg : f.isEmpty with _ | _
      · rfl
      · exact absurd ((String.isEmpty_iff f).mp hearg) hf
    simp [SelectBuilder.buildQueryParams, hlen, hemp]
  · simp [buildQueryParts, e1, e2]

/-- Concrete witness for C4: column names with a space, an ampersand, a
percent sign, a comma and Japanese characters each produce their own
correctly encoded pair, in order, and decoding recovers the originals. -/
theorem query_params_percent_encoding_witness :
    buildQueryParts [("column", JsParam.arrVal ["a b", "c&d", "e,f", "名前"]),
        ("filter", JsParam.str "[X]>100% & ok")]
      = ["column=a%20b", "column=c%26d", "column=e%2Cf",
         "column=%E5%90%8D%E5%89%8D", "filter=%5BX%5D%3E100%25%20%26%20ok"]
    ∧ decodeURIComponent (encodeURIComponent "a b") = some "a b"
    ∧ decodeURIComponent (encodeURIComponent "名前") = some "名前"
    ∧ decodeURIComponent (encodeURIComponent "[X]>100% & ok") = some "[X]>100% & ok" := by
  have h := query_params_percent_encoding ["a b", "c&d", "e,f", "名前"] "[X]>100% & ok"
    (by simp) (by simp)
  refine ⟨?_, h.2.2.1 "a b" (by simp), h.2.2.1 "名前" (by simp), h.2.2.2.1⟩
  rw [h.2.1]
  decide

end Tedasuke
